import Mathlib

/-!
Verification of the YLS recidivism risk-assessment app.

Shallow embedding of `src/English_risk_app.py` (a Streamlit app that scores a
fixed 42-item binary questionnaire with a pretrained classifier, maps the
resulting probability to a risk tier, and displays per-feature attributions).

Modelling conventions:
* Probabilities are rationals (`ℚ`); answer values are integers (`ℤ`).
* The pretrained classifier's `predict_proba` and the SHAP explainer are
  external opaque functions; they are passed as explicit function parameters.
* A Python dict of answers is an association list `List (String × ℤ)`;
  `pandas` column selection `df[ALL_FEATURES]` is modelled by `valid_input_df`,
  which fails (KeyError) exactly when a requested column is absent, reports the
  missing columns, silently ignores extra columns and never inspects values.
-/

namespace EnglishRiskApp

/-- Lines 27-86: `YLS_DOMAINS`, the static catalog of 8 domains, each a list of
items given as (id, label) pairs. -/
def YLS_DOMAINS : List (String × List (String × String)) :=
  [ ("1. Prior and Current Offenses/Dispositions",
      [("YLS_1a", "YLS 1a"), ("YLS_1b", "YLS 1b"), ("YLS_1c", "YLS 1c"),
       ("YLS_1d", "YLS 1d"), ("YLS_1e", "YLS 1e")]),
    ("2. Family Circumstances/Parenting",
      [("YLS_2a", "YLS 2a"), ("YLS_2b", "YLS 2b"), ("YLS_2c", "YLS 2c"),
       ("YLS_2d", "YLS 2d"), ("YLS_2e", "YLS 2e"), ("YLS_2f", "YLS 2f")]),
    ("3. Education/Employment",
      [("YLS_3a", "YLS 3a"), ("YLS_3b", "YLS 3b"), ("YLS_3c", "YLS 3c"),
       ("YLS_3d", "YLS 3d"), ("YLS_3e", "YLS 3e"), ("YLS_3f", "YLS 3f"),
       ("YLS_3g", "YLS 3g")]),
    ("4. Peer Relations",
      [("YLS_4a", "YLS 4a"), ("YLS_4b", "YLS 4b"), ("YLS_4c", "YLS 4c"),
       ("YLS_4d", "YLS 4d")]),
    ("5. Substance Abuse",
      [("YLS_5a", "YLS 5a"), ("YLS_5b", "YLS 5b"), ("YLS_5c", "YLS 5c"),
       ("YLS_5d", "YLS 5d"), ("YLS_5e", "YLS 5e")]),
    ("6. Leisure/Recreation",
      [("YLS_6a", "YLS 6a"), ("YLS_6b", "YLS 6b"), ("YLS_6c", "YLS 6c")]),
    ("7. Personality/Behavior",
      [("YLS_7a", "YLS 7a"), ("YLS_7b", "YLS 7b"), ("YLS_7c", "YLS 7c"),
       ("YLS_7d", "YLS 7d"), ("YLS_7e", "YLS 7e"), ("YLS_7f", "YLS 7f"),
       ("YLS_7g", "YLS 7g")]),
    ("8. Attitudes/Orientation",
      [("YLS_8a", "YLS 8a"), ("YLS_8b", "YLS 8b"), ("YLS_8c", "YLS 8c"),
       ("YLS_8d", "YLS 8d"), ("YLS_8e", "YLS 8e")]) ]

/-- Lines 88-94: `ALL_FEATURES`, the item identifiers collected in domain order
(the canonical feature order the classifier expects). -/
def ALL_FEATURES : List String :=
  (YLS_DOMAINS.map (fun d => d.2.map Prod.fst)).flatten

/-- Lines 88-94: `LABELS_DICT`, mapping each identifier to its display label,
modelled as an association list built in the same iteration order. -/
def LABELS_DICT : List (String × String) :=
  (YLS_DOMAINS.map (fun d => d.2)).flatten

/-- The four risk tiers named by the branches at lines 154-169
("High Risk", "Medium Risk", "Low Risk", "Lowest Risk"). -/
inductive RiskTier where
  | Lowest
  | Low
  | Medium
  | High
deriving DecidableEq, Repr

/-- Severity ordering of the tiers: Lowest < Low < Medium < High. -/
def severity : RiskTier → Nat
  | .Lowest => 0
  | .Low => 1
  | .Medium => 2
  | .High => 3

/-- Lines 154-169: the if/elif chain on `prob`, returned as a tier.
`prob >= 0.71` is High, `elif prob >= 0.33` Medium, `elif prob >= 0.18` Low,
`else` Lowest. -/
def tier_for (prob : ℚ) : RiskTier :=
  if 71 / 100 ≤ prob then .High
  else if 33 / 100 ≤ prob then .Medium
  else if 18 / 100 ≤ prob then .Low
  else .Lowest

/-- The `text` variable set by each branch of lines 154-169. -/
def risk_text (prob : ℚ) : String :=
  if 71 / 100 ≤ prob then "High Risk"
  else if 33 / 100 ≤ prob then "Medium Risk"
  else if 18 / 100 ≤ prob then "Low Risk"
  else "Lowest Risk"

/-- The display text carried by each tier in the source's branches. -/
def textOfTier : RiskTier → String
  | .Lowest => "Lowest Risk"
  | .Low => "Low Risk"
  | .Medium => "Medium Risk"
  | .High => "High Risk"

/-- The ordered feature row obtained by reading the answers dict at each
identifier of `ALL_FEATURES`, in catalog order (the row of
`input_df[ALL_FEATURES]` at line 147 when every column is present). -/
def feature_vector (inputs : List (String × ℤ)) : List ℤ :=
  ALL_FEATURES.map (fun f => ((inputs.lookup f).getD 0))

/-- Line 146-147: `valid_input_df = pd.DataFrame([user_inputs])[ALL_FEATURES]`.
Pandas column selection raises a KeyError naming the columns of
`ALL_FEATURES` absent from the dict; otherwise it yields the row in
`ALL_FEATURES` order. Extra keys are silently dropped and values are never
inspected. -/
def valid_input_df (inputs : List (String × ℤ)) : Except (List String) (List ℤ) :=
  let missing := ALL_FEATURES.filter (fun f => (inputs.lookup f).isNone)
  if missing.isEmpty then .ok (feature_vector inputs) else .error missing

/-- Lines 150-151: the prediction. `prob = model.predict_proba(valid_input_df)[0][1]`
takes the second entry of the two-class probability pair, and
`total_score = valid_input_df.sum(axis=1).values[0]` sums the selected row.
The classifier `predict_proba` is opaque and passed in as `pp`. -/
def score (pp : List ℤ → ℚ × ℚ) (inputs : List (String × ℤ)) :
    Except (List String) (ℚ × ℤ) :=
  (valid_input_df inputs).map (fun fv => ((pp fv).2, fv.sum))

/-- A valid Answer Vector: exactly one entry per catalog identifier (keys have
no duplicates, every identifier of `ALL_FEATURES` is present, no unknown key)
and every value is binary (0 or 1). -/
def validAnswerVector (inputs : List (String × ℤ)) : Bool :=
  decide ((inputs.map Prod.fst).Nodup)
    && ALL_FEATURES.all (fun f => (inputs.lookup f).isSome)
    && inputs.all (fun e => decide (e.1 ∈ ALL_FEATURES) && (e.2 == 0 || e.2 == 1))

/-- Lines 136-139: the input layer. One checkbox per item, iterated in domain
order; `user_inputs[item["id"]] = 1 if is_checked else 0`. The checkbox state
is the opaque function `checked`. -/
def user_inputs (checked : String → Bool) : List (String × ℤ) :=
  ALL_FEATURES.map (fun f => (f, if checked f then (1 : ℤ) else 0))

/-- Line 198: `LABELS_DICT.get(f, f)` — display label with the identifier
itself as fallback. -/
def display_label_for (f : String) : String :=
  (LABELS_DICT.lookup f).getD f

/-- One entry of the attribution breakdown: identifier, display label and the
signed contribution value. -/
structure AttributionEntry where
  item_identifier : String
  display_label : String
  contribution_value : ℚ
deriving DecidableEq, Repr

/-- Lines 196-198: `shap_values = explainer(valid_input_df)` followed by
relabelling `shap_values.feature_names = [LABELS_DICT.get(f, f) for f in
ALL_FEATURES]`. The SHAP explainer is opaque and passed in as `ex`,
returning one contribution value per feature of the row it is given. The
result pairs each catalog identifier, in order, with its label and its
contribution. -/
def explain_entries (ex : List ℤ → List ℚ) (inputs : List (String × ℤ)) :
    Except (List String) (List AttributionEntry) :=
  (valid_input_df inputs).map (fun fv =>
    (ALL_FEATURES.zip (ex fv)).map (fun p =>
      ⟨p.1, display_label_for p.1, p.2⟩))

/-- The two output shapes the SHAP explanation of one instance can take:
a single per-feature row (single-output model), or a per-feature array of
per-class contributions — for this binary classifier a (class0, class1)
pair per feature. -/
inductive ShapOutput where
  | single (row : List ℚ)
  | multi (rows : List (ℚ × ℚ))
deriving DecidableEq, Repr

/-- Line 205: the indexing `shap_values[0, :, 1]`. On a multi-output
explanation it selects, for every feature, the contribution of the positive
class (index 1). On a single-output explanation the third index does not
exist and the indexing raises, modelled as `.error`. -/
def index_positive_class : ShapOutput → Except String (List ℚ)
  | .multi rows => .ok (rows.map Prod.snd)
  | .single _ => .error "too many indices for array"

/-- Lines 203-207: the try/except around `shap.plots.waterfall`. First try the
positive-class selection `shap_values[0, :, 1]`; if that raises, fall back to
the single available row `shap_values[0]`. (The fallback is only ever reached
on the single-output shape; its multi-output branch is dead code and selects
the positive class as the try branch does.) -/
def waterfall_row (sv : ShapOutput) : List ℚ :=
  match index_positive_class sv with
  | .ok v => v
  | .error _ =>
      match sv with
      | .single row => row
      | .multi rows => rows.map Prod.snd

/-- Result of `load_ai_model` (lines 99-109): either the model together with
the SHAP explainer built from it, or `(None, error message)`. -/
inductive LoadResult (M E : Type) where
  | loaded (model : M) (explainer : E)
  | failed (msg : String)
deriving Repr

/-- Lines 99-109: try `model.load_model("yls_model.ubj")`; on any exception
return `(None, "Model loading error: ...")`; on success build the explainer
from the model and return both. The underlying file read is the opaque
`attempt`, the explainer constructor the opaque `mkExplainer`. -/
def load_ai_model {M E : Type} (attempt : Except String M)
    (mkExplainer : M → E) : LoadResult M E :=
  match attempt with
  | .ok m => .loaded m (mkExplainer m)
  | .error e => .failed ("Model loading error: " ++ e)

/-- Lines 111-151: the app's scoring path. After `load_ai_model`, if the model
is `None` the app shows `st.error(...)` and calls `st.stop()` — no scoring
runs. Otherwise the user inputs are collected and scored with the loaded
model's `predict_proba`. -/
def app_run {M E : Type} (load : LoadResult M E) (pp : M → List ℤ → ℚ × ℚ)
    (checked : String → Bool) : Except String (ℚ × ℤ) :=
  match load with
  | .failed _ =>
      .error "Error: 'yls_model.ubj' not found. Please ensure the model file is in the directory."
  | .loaded m _ =>
      (score (pp m) (user_inputs checked)).mapError (String.intercalate ", ")

/-! ## Helper lemmas -/

lemma tier_for_eq_high_iff (p : ℚ) : tier_for p = .High ↔ 71 / 100 ≤ p := by
  unfold tier_for
  split_ifs with h1 h2 h3 <;> simp_all

lemma tier_for_eq_medium_iff (p : ℚ) :
    tier_for p = .Medium ↔ 33 / 100 ≤ p ∧ p < 71 / 100 := by
  unfold tier_for
  split_ifs with h1 h2 h3 <;>
    simp only [reduceCtorEq, false_iff, true_iff, not_and, not_lt]
  · exact fun _ => h1
  · exact ⟨h2, not_le.mp h1⟩
  · exact fun h4 => absurd h4 h2
  · exact fun h4 => absurd h4 h2

lemma tier_for_eq_low_iff (p : ℚ) :
    tier_for p = .Low ↔ 18 / 100 ≤ p ∧ p < 33 / 100 := by
  unfold tier_for
  split_ifs with h1 h2 h3 <;>
    simp only [reduceCtorEq, false_iff, true_iff, not_and, not_lt]
  · exact fun _ => by linarith
  · exact fun _ => h2
  · exact ⟨h3, not_le.mp h2⟩
  · exact fun h4 => absurd h4 h3

lemma tier_for_eq_lowest_iff (p : ℚ) : tier_for p = .Lowest ↔ p < 18 / 100 := by
  unfold tier_for
  split_ifs with h1 h2 h3 <;>
    simp only [reduceCtorEq, false_iff, true_iff, not_lt]
  · linarith
  · linarith
  · exact h3
  · exact not_le.mp h3

lemma ALL_FEATURES_nodup : ALL_FEATURES.Nodup := by decide

lemma ALL_FEATURES_length : ALL_FEATURES.length = 42 := by decide

lemma mem_keys_of_lookup_isSome {l : List (String × ℤ)} {a : String}
    (h : (l.lookup a).isSome = true) : a ∈ l.map Prod.fst := by
  induction l with
  | nil => simp [List.lookup] at h
  | cons e t ih =>
    rcases e with ⟨k, v⟩
    rw [List.lookup_cons] at h
    cases hak : a == k with
    | true =>
      simp only [List.map_cons, List.mem_cons]
      exact Or.inl (beq_iff_eq.mp hak)
    | false =>
      rw [hak] at h
      simp only [List.map_cons, List.mem_cons]
      exact Or.inr (ih h)

/-- Reading an association list with duplicate-free keys back at each of its
own keys recovers exactly its values. -/
lemma keys_map_lookup {l : List (String × ℤ)}
    (h : (l.map Prod.fst).Nodup) :
    (l.map Prod.fst).map (fun k => ((l.lookup k).getD 0)) = l.map Prod.snd := by
  induction l with
  | nil => rfl
  | cons e t ih =>
    rcases e with ⟨k, v⟩
    simp only [List.map_cons] at h ⊢
    rw [List.nodup_cons] at h
    obtain ⟨hk, ht⟩ := h
    have hstep : (t.map Prod.fst).map (fun a => ((((k, v) :: t).lookup a).getD 0))
        = (t.map Prod.fst).map (fun a => ((t.lookup a).getD 0)) := by
      apply List.map_congr_left
      intro a ha
      have hak : (a == k) = false :=
        beq_false_of_ne (fun hh => hk (hh ▸ ha))
      rw [List.lookup_cons, hak]
    congr 1
    · rw [List.lookup_cons, BEq.refl]
      rfl
    · rw [hstep, ih ht]

/-- The components of a valid Answer Vector. -/
lemma validAnswerVector_spec {l : List (String × ℤ)}
    (h : validAnswerVector l = true) :
    (l.map Prod.fst).Nodup ∧
      (∀ f ∈ ALL_FEATURES, (l.lookup f).isSome = true) ∧
      (∀ e ∈ l, e.1 ∈ ALL_FEATURES ∧ (e.2 = 0 ∨ e.2 = 1)) := by
  unfold validAnswerVector at h
  simp only [Bool.and_eq_true, decide_eq_true_eq, List.all_eq_true,
    beq_iff_eq, Bool.or_eq_true] at h
  exact ⟨h.1.1, h.1.2, h.2⟩

/-- The keys of a valid Answer Vector are a permutation of the catalog. -/
lemma valid_keys_perm {l : List (String × ℤ)}
    (h : validAnswerVector l = true) :
    (l.map Prod.fst).Perm ALL_FEATURES := by
  obtain ⟨hnd, hsome, hmem⟩ := validAnswerVector_spec h
  have hsub1 : l.map Prod.fst ⊆ ALL_FEATURES := by
    intro a ha
    obtain ⟨e, he, rfl⟩ := List.mem_map.mp ha
    exact (hmem e he).1
  have hsub2 : ALL_FEATURES ⊆ l.map Prod.fst := by
    intro f hf
    exact mem_keys_of_lookup_isSome (hsome f hf)
  exact (List.subperm_of_subset hnd hsub1).antisymm
    (List.subperm_of_subset ALL_FEATURES_nodup hsub2)

/-- On a valid Answer Vector, pandas column selection succeeds and yields the
feature row in catalog order. -/
lemma valid_input_df_ok {l : List (String × ℤ)}
    (h : validAnswerVector l = true) :
    valid_input_df l = .ok (feature_vector l) := by
  obtain ⟨-, hsome, -⟩ := validAnswerVector_spec h
  unfold valid_input_df
  have hnil : ALL_FEATURES.filter (fun f => (l.lookup f).isNone) = [] := by
    rw [List.filter_eq_nil_iff]
    intro f hf hcontra
    have hs := hsome f hf
    rw [Option.isNone_iff_eq_none] at hcontra
    rw [hcontra] at hs
    exact absurd hs (by simp)
  rw [hnil]
  rfl

/-- On a valid Answer Vector, the feature row sums to the sum of the answer
values. -/
lemma feature_vector_sum {l : List (String × ℤ)}
    (h : validAnswerVector l = true) :
    (feature_vector l).sum = (l.map Prod.snd).sum := by
  obtain ⟨hnd, -, -⟩ := validAnswerVector_spec h
  have hperm : (ALL_FEATURES.map (fun f => ((l.lookup f).getD 0))).Perm
      ((l.map Prod.fst).map (fun f => ((l.lookup f).getD 0))) :=
    List.Perm.map _ (valid_keys_perm h).symm
  unfold feature_vector
  rw [hperm.sum_eq, keys_map_lookup hnd]

/-! ## Claims about the risk-tier mapping -/

/-- C1: the tier mapping uses exactly the cut-points 0.71, 0.33, 0.18 with
inclusive lower bounds: for every p in [0,1], p ≥ 0.71 is High,
0.33 ≤ p < 0.71 is Medium, 0.18 ≤ p < 0.33 is Low, p < 0.18 is Lowest; in
particular tier_for 0 = Lowest, tier_for 0.18 = Low, tier_for 0.33 = Medium,
tier_for 0.71 = High, tier_for 1 = High — and the tier carries exactly the
display text of the corresponding source branch. -/
theorem c1_tier_for_cutpoints :
    (∀ p : ℚ, 0 ≤ p → p ≤ 1 →
      ((tier_for p = .High ↔ 71 / 100 ≤ p) ∧
       (tier_for p = .Medium ↔ 33 / 100 ≤ p ∧ p < 71 / 100) ∧
       (tier_for p = .Low ↔ 18 / 100 ≤ p ∧ p < 33 / 100) ∧
       (tier_for p = .Lowest ↔ p < 18 / 100))) ∧
    tier_for 0 = .Lowest ∧ tier_for (18 / 100) = .Low ∧
    tier_for (33 / 100) = .Medium ∧ tier_for (71 / 100) = .High ∧
    tier_for 1 = .High ∧
    (∀ p : ℚ, risk_text p = textOfTier (tier_for p)) := by
  refine ⟨fun p _ _ => ⟨tier_for_eq_high_iff p, tier_for_eq_medium_iff p,
    tier_for_eq_low_iff p, tier_for_eq_lowest_iff p⟩, ?_, ?_, ?_, ?_, ?_, ?_⟩
  · exact (tier_for_eq_lowest_iff 0).mpr (by norm_num)
  · exact (tier_for_eq_low_iff _).mpr (by norm_num)
  · exact (tier_for_eq_medium_iff _).mpr (by norm_num)
  · exact (tier_for_eq_high_iff _).mpr (by norm_num)
  · exact (tier_for_eq_high_iff _).mpr (by norm_num)
  · intro p
    unfold risk_text textOfTier tier_for
    split_ifs <;> rfl

/-- Witness for C1: evaluating the band characterisation at p = 1/2. -/
theorem c1_witness : tier_for (1 / 2) = RiskTier.Medium :=
  ((c1_tier_for_cutpoints.1 (1 / 2) (by norm_num) (by norm_num)).2.1).mpr
    (by norm_num)

/-- C4: the tier mapping is total (a function on all of ℚ) and monotonically
non-decreasing in severity on [0,1]: p1 ≤ p2 implies
severity (tier_for p1) ≤ severity (tier_for p2). -/
theorem c4_tier_for_monotone (p1 p2 : ℚ) (h0 : 0 ≤ p1) (h1 : p2 ≤ 1)
    (h : p1 ≤ p2) : severity (tier_for p1) ≤ severity (tier_for p2) := by
  unfold tier_for
  split_ifs
  all_goals simp only [severity]
  all_goals try norm_num
  all_goals exfalso
  all_goals linarith

/-- Witness for C4: monotonicity evaluated at 1/10 ≤ 9/10. -/
theorem c4_witness : severity (tier_for (1 / 10)) ≤ severity (tier_for (9 / 10)) :=
  c4_tier_for_monotone (1 / 10) (9 / 10) (by norm_num) (by norm_num) (by norm_num)

/-- C10: the tier mapping is total over all rational inputs, with no error
branch: any value greater than 1 maps to High and any negative value maps to
Lowest. -/
theorem c10_tier_for_outside_domain (p : ℚ) :
    (1 < p → tier_for p = .High) ∧ (p < 0 → tier_for p = .Lowest) := by
  constructor
  · intro h
    exact (tier_for_eq_high_iff p).mpr (by linarith)
  · intro h
    exact (tier_for_eq_lowest_iff p).mpr (by linarith)

/-- Witness for C10: evaluation at 2 and -1. -/
theorem c10_witness : tier_for 2 = RiskTier.High ∧ tier_for (-1) = RiskTier.Lowest :=
  ⟨(c10_tier_for_outside_domain 2).1 (by norm_num),
   (c10_tier_for_outside_domain (-1)).2 (by norm_num)⟩

/-! ## Claims about scoring -/

/-- C2: for every valid Answer Vector, the computed sum_score equals the
arithmetic sum of the 42 binary answer values. -/
theorem c2_sum_score (pp : List ℤ → ℚ × ℚ) (inputs : List (String × ℤ))
    (h : validAnswerVector inputs = true) :
    score pp inputs =
      .ok ((pp (feature_vector inputs)).2, (inputs.map Prod.snd).sum) := by
  unfold score
  rw [valid_input_df_ok h]
  simp only [Except.map]
  rw [feature_vector_sum h]

/-- Witness for C2: the all-zero vector scores 0 and the all-one vector scores
42. -/
theorem c2_witness :
    score (fun _ => ((1 : ℚ) / 2, (1 : ℚ) / 2)) (user_inputs (fun _ => false)) =
      .ok (1 / 2, 0) ∧
    score (fun _ => ((1 : ℚ) / 2, (1 : ℚ) / 2)) (user_inputs (fun _ => true)) =
      .ok (1 / 2, 42) := by
  constructor
  · rw [c2_sum_score _ _ (by decide)]
    rfl
  · rw [c2_sum_score _ _ (by decide)]
    rfl

/-- C3 counterexample: the claim says scoring must fail when the Answer Vector
contains an unknown identifier or a non-binary value. It does not: with all 42
identifiers present, an extra unknown key is silently dropped and a value of 5
is accepted and summed, both scoring successfully. -/
theorem c3_counterexample :
    score (fun _ => ((1 : ℚ) / 2, (1 : ℚ) / 2))
        (user_inputs (fun _ => false) ++ [("NOT_A_YLS_ITEM", 1)]) =
      .ok (1 / 2, 0) ∧
    score (fun _ => ((1 : ℚ) / 2, (1 : ℚ) / 2))
        (ALL_FEATURES.map (fun f => (f, if f = "YLS_1a" then (5 : ℤ) else 0))) =
      .ok (1 / 2, 5) := by
  constructor <;> rfl

/-- C3 amended: scoring fails — with an error reporting exactly the required
identifiers that are absent (a caller-correctable KeyError, the process
survives) — precisely when some of the 42 required identifiers is missing;
unknown extra identifiers are silently ignored and non-binary values are
accepted without error. -/
theorem c3_missing_identifiers (pp : List ℤ → ℚ × ℚ)
    (inputs : List (String × ℤ)) :
    (ALL_FEATURES.filter (fun f => (inputs.lookup f).isNone) = [] →
      score pp inputs = .ok ((pp (feature_vector inputs)).2, (feature_vector inputs).sum)) ∧
    (ALL_FEATURES.filter (fun f => (inputs.lookup f).isNone) ≠ [] →
      score pp inputs =
        .error (ALL_FEATURES.filter (fun f => (inputs.lookup f).isNone))) := by
  constructor
  · intro hnil
    unfold score valid_input_df
    rw [hnil]
    rfl
  · intro hne
    unfold score valid_input_df
    rw [if_neg (by simpa [List.isEmpty_iff] using hne)]
    rfl

/-- Witness for C3's amended statement: the empty Answer Vector is missing all
42 identifiers and scoring reports every one of them. -/
theorem c3_witness :
    score (fun _ => ((1 : ℚ) / 2, (1 : ℚ) / 2)) ([] : List (String × ℤ)) =
      .error ALL_FEATURES := by
  have h := (c3_missing_identifiers (fun _ => ((1 : ℚ) / 2, (1 : ℚ) / 2)) []).2
    (by decide)
  rw [h]
  rfl

/-- C5: for every valid Answer Vector and any classifier, scoring builds the
feature vector in canonical catalog order (the value at each identifier of
`ALL_FEATURES`, in order), invokes the classifier on it, and reports the
second entry (index 1, the positive class) of the returned probability
pair. -/
theorem c5_positive_class (pp : List ℤ → ℚ × ℚ) (inputs : List (String × ℤ))
    (h : validAnswerVector inputs = true) :
    valid_input_df inputs =
      .ok (ALL_FEATURES.map (fun f => ((inputs.lookup f).getD 0))) ∧
    score pp inputs =
      .ok ((pp (feature_vector inputs)).2, (feature_vector inputs).sum) := by
  refine ⟨valid_input_df_ok h, ?_⟩
  unfold score
  rw [valid_input_df_ok h]
  rfl

/-- Witness for C5: on the all-one vector the reported probability is the
second component returned by the classifier. -/
theorem c5_witness :
    score (fun _ => ((1 : ℚ) / 4, (3 : ℚ) / 4)) (user_inputs (fun _ => true)) =
      .ok (3 / 4, 42) := by
  rw [(c5_positive_class (fun _ => ((1 : ℚ) / 4, (3 : ℚ) / 4))
    (user_inputs (fun _ => true)) (by decide)).2]
  rfl

/-! ## Claims about attribution -/

/-- C6: for every valid Answer Vector, the attribution adapter invokes the
explainer on the same ordered feature vector the scoring path selects, and
returns exactly 42 entries whose identifiers are the catalog identifiers in
canonical order (hence no missing, no duplicate, no extra), each mapped to its
display label, carrying the explainer's contributions in order. -/
theorem c6_explain_entries (ex : List ℤ → List ℚ) (inputs : List (String × ℤ))
    (h : validAnswerVector inputs = true)
    (hex : ∀ fv, (ex fv).length = fv.length) :
    ∃ entries, explain_entries ex inputs = .ok entries ∧
      entries.length = 42 ∧
      entries.map (fun e => e.item_identifier) = ALL_FEATURES ∧
      (entries.map (fun e => e.item_identifier)).Nodup ∧
      (∀ e ∈ entries, e.display_label = display_label_for e.item_identifier) ∧
      entries.map (fun e => e.contribution_value) = ex (feature_vector inputs) ∧
      valid_input_df inputs = .ok (feature_vector inputs) := by
  have hfvlen : (feature_vector inputs).length = 42 := by
    unfold feature_vector
    rw [List.length_map, ALL_FEATURES_length]
  have hclen : (ex (feature_vector inputs)).length = 42 := by
    rw [hex, hfvlen]
  have hle1 : ALL_FEATURES.length ≤ (ex (feature_vector inputs)).length := by
    rw [hclen, ALL_FEATURES_length]
  have hle2 : (ex (feature_vector inputs)).length ≤ ALL_FEATURES.length := by
    rw [hclen, ALL_FEATURES_length]
  have hids : ((ALL_FEATURES.zip (ex (feature_vector inputs))).map
      (fun p => AttributionEntry.mk p.1 (display_label_for p.1) p.2)).map
        (fun e => e.item_identifier) = ALL_FEATURES := by
    rw [List.map_map]
    have hcomp : ((fun e : AttributionEntry => e.item_identifier) ∘
        fun p : String × ℚ =>
          AttributionEntry.mk p.1 (display_label_for p.1) p.2) = Prod.fst := by
      funext p
      rfl
    rw [hcomp]
    exact List.map_fst_zip _ _ hle1
  refine ⟨(ALL_FEATURES.zip (ex (feature_vector inputs))).map
      (fun p => AttributionEntry.mk p.1 (display_label_for p.1) p.2),
    ?_, ?_, hids, ?_, ?_, ?_, valid_input_df_ok h⟩
  · unfold explain_entries
    rw [valid_input_df_ok h]
    rfl
  · rw [List.length_map, List.length_zip, ALL_FEATURES_length, hclen]
    exact min_self 42
  · rw [hids]
    exact ALL_FEATURES_nodup
  · intro e he
    obtain ⟨p, hp, rfl⟩ := List.mem_map.mp he
    rfl
  · rw [List.map_map]
    have hcomp : ((fun e : AttributionEntry => e.contribution_value) ∘
        fun p : String × ℚ =>
          AttributionEntry.mk p.1 (display_label_for p.1) p.2) = Prod.snd := by
      funext p
      rfl
    rw [hcomp]
    exact List.map_snd_zip _ _ hle2

/-- Witness for C6: explaining the all-one vector with an explainer assigning
contribution 1/10 to every feature yields 42 entries whose identifiers are
exactly the catalog in order. -/
theorem c6_witness :
    (explain_entries (fun fv => fv.map (fun _ => (1 : ℚ) / 10))
        (user_inputs (fun _ => true))).map List.length = .ok 42 ∧
    (explain_entries (fun fv => fv.map (fun _ => (1 : ℚ) / 10))
        (user_inputs (fun _ => true))).map
      (fun l => l.map (fun e => e.item_identifier)) = .ok ALL_FEATURES := by
  obtain ⟨entries, h1, h2, h3, -⟩ :=
    c6_explain_entries (fun fv => fv.map (fun _ => (1 : ℚ) / 10))
      (user_inputs (fun _ => true)) (by decide)
      (fun fv => by rw [List.length_map])
  rw [h1]
  exact ⟨by rw [show Except.map List.length (Except.ok entries)
      = Except.ok entries.length from rfl, h2],
    by rw [show Except.map (fun l => l.map (fun e => e.item_identifier))
      (Except.ok entries) = Except.ok (entries.map (fun e => e.item_identifier))
      from rfl, h3]⟩

/-- C7: the dual-shape dispatch for the explainer output. On the multi-output
shape the positive-class (index 1) contribution is selected for every feature;
on the single-output shape that indexing raises and the fallback uses the
single available row; the final selection succeeds on both shapes — neither is
an error. -/
theorem c7_dual_shape (pairs : List (ℚ × ℚ)) (row : List ℚ) :
    index_positive_class (.multi pairs) = .ok (pairs.map Prod.snd) ∧
    (∃ msg, index_positive_class (.single row) = .error msg) ∧
    waterfall_row (.multi pairs) = pairs.map Prod.snd ∧
    waterfall_row (.single row) = row :=
  ⟨rfl, ⟨_, rfl⟩, rfl, rfl⟩

/-! ## Claims about startup and the input layer -/

/-- C8: if the model artifact cannot be loaded, `load_ai_model` yields no
classifier (the failed result), and the app surfaces the operator-facing
error without running any scoring — the outcome is the same for every
classifier function `pp`, which is never invoked. -/
theorem c8_startup_failure {M E : Type} (e : String) (mkExplainer : M → E)
    (pp : M → List ℤ → ℚ × ℚ) (checked : String → Bool) :
    load_ai_model (Except.error e) mkExplainer =
      .failed ("Model loading error: " ++ e) ∧
    app_run (load_ai_model (Except.error e) mkExplainer) pp checked =
      .error "Error: 'yls_model.ubj' not found. Please ensure the model file is in the directory." :=
  ⟨rfl, rfl⟩

lemma user_inputs_valid (checked : String → Bool) :
    validAnswerVector (user_inputs checked) = true := by
  unfold validAnswerVector user_inputs
  simp only [Bool.and_eq_true, decide_eq_true_eq, List.all_eq_true,
    Bool.or_eq_true, beq_iff_eq]
  refine ⟨⟨?_, ?_⟩, ?_⟩
  · have hkeys : (ALL_FEATURES.map
        (fun f => (f, if checked f then (1 : ℤ) else 0))).map Prod.fst
        = ALL_FEATURES := by
      rw [List.map_map]
      have hid : (Prod.fst ∘ fun f : String =>
          (f, if checked f then (1 : ℤ) else 0)) = id := by
        funext f
        rfl
      rw [hid, List.map_id]
    rw [hkeys]
    exact ALL_FEATURES_nodup
  · intro f hf
    rw [List.lookup_graph _ hf]
    rfl
  · intro e he
    obtain ⟨f, hf, rfl⟩ := List.mem_map.mp he
    refine ⟨hf, ?_⟩
    by_cases hcf : checked f <;> simp [hcf]

lemma feature_vector_user_inputs (checked : String → Bool) :
    feature_vector (user_inputs checked) =
      ALL_FEATURES.map (fun f => if checked f then (1 : ℤ) else 0) := by
  unfold feature_vector user_inputs
  apply List.map_congr_left
  intro f hf
  rw [List.lookup_graph _ hf]
  rfl

lemma binary_sum_bounds (l : List ℤ) (h : ∀ x ∈ l, x = 0 ∨ x = 1) :
    0 ≤ l.sum ∧ l.sum ≤ (l.length : ℤ) := by
  induction l with
  | nil => simp
  | cons x t ih =>
    obtain ⟨h0, h1⟩ := ih (fun y hy => h y (List.mem_cons_of_mem _ hy))
    have hx := h x (List.mem_cons_self _ _)
    simp only [List.sum_cons, List.length_cons]
    push_cast
    rcases hx with rfl | rfl <;> constructor <;> linarith

/-- C9: every Answer Vector produced by the input layer is valid by
construction (all 42 catalog identifiers, no others, each value exactly 0 or
1), and — provided the classifier reports a probability in [0,1] — the
Prediction Result shape holds: probability in [0,1] and sum_score an integer
in [0,42]. -/
theorem c9_input_layer_shape (checked : String → Bool) (pp : List ℤ → ℚ × ℚ)
    (hpp : ∀ fv, 0 ≤ (pp fv).2 ∧ (pp fv).2 ≤ 1) :
    validAnswerVector (user_inputs checked) = true ∧
    ∃ p s, score pp (user_inputs checked) = .ok (p, s) ∧
      0 ≤ p ∧ p ≤ 1 ∧ 0 ≤ s ∧ s ≤ 42 := by
  have hsum : 0 ≤ (feature_vector (user_inputs checked)).sum ∧
      (feature_vector (user_inputs checked)).sum ≤ 42 := by
    have hb := binary_sum_bounds (feature_vector (user_inputs checked)) ?_
    · have hlen : ((feature_vector (user_inputs checked)).length : ℤ) = 42 := by
        rw [feature_vector_user_inputs, List.length_map, ALL_FEATURES_length]
        rfl
      exact ⟨hb.1, hlen ▸ hb.2⟩
    · intro x hx
      rw [feature_vector_user_inputs] at hx
      obtain ⟨f, -, rfl⟩ := List.mem_map.mp hx
      by_cases hcf : checked f <;> simp [hcf]
  refine ⟨user_inputs_valid checked,
    (pp (feature_vector (user_inputs checked))).2,
    (feature_vector (user_inputs checked)).sum, ?_,
    (hpp _).1, (hpp _).2, hsum.1, hsum.2⟩
  unfold score
  rw [valid_input_df_ok (user_inputs_valid checked)]
  rfl

/-- Witness for C9: with no box checked and a constant-1/3 classifier, the
prediction result is (1/3, 0), inside the required shape. -/
theorem c9_witness :
    validAnswerVector (user_inputs (fun _ => false)) = true ∧
    score (fun _ => ((2 : ℚ) / 3, (1 : ℚ) / 3)) (user_inputs (fun _ => false)) =
      .ok (1 / 3, 0) ∧
    (0 : ℚ) ≤ 1 / 3 ∧ (1 : ℚ) / 3 ≤ 1 ∧ (0 : ℤ) ≤ 0 ∧ (0 : ℤ) ≤ 42 :=
  ⟨(c9_input_layer_shape (fun _ => false)
      (fun _ => ((2 : ℚ) / 3, (1 : ℚ) / 3)) (fun _ => by norm_num)).1,
    by rfl, by norm_num, by norm_num, le_refl 0, by norm_num⟩

end EnglishRiskApp
